import Mathlib

/-!
Verification development for the BlueBot Studio automation controller
(`towering_bot.py`): a shallow embedding of the vision matcher, the
template library loader, and the `Bot.loop` state machine, together with
theorems settling the frozen specification claims.

Modelling conventions:
* Times and similarity scores are rationals (`ℚ`); the Python code uses
  floats, but every comparison the claims depend on is exact arithmetic
  on the configured constants.
* All `time.time()` reads inside one iteration of `Bot.loop` are modelled
  as the iteration's single poll time `now`; the intra-iteration sleeps
  only shift that time by a fraction of a second and carry no logic.
* Screen scans (`_scan_full` / `_scan_region` calls inside the loop) are
  abstracted by a `ScanEnv`: for a fixed iteration the screen content is
  fixed, so each scan is a pure function of the requested template key
  (and region).  The internals of a scan (size guard, threshold gate,
  coordinate translation) are embedded separately as `find_best_run` and
  `scan_region` and verified on their own.
* `cv.matchTemplate`/`cv.minMaxLoc` (the similarity search) is an opaque
  parameter `search`; `find_best_run` additionally records whether the
  search was invoked, which the source's size guard is claimed to skip.
-/

/-- Grayscale image: only its dimensions matter to the embedded logic. -/
structure Image where
  width : Nat
  height : Nat
deriving DecidableEq, Repr

/-- Result of a template scan, mirroring the `Match` dataclass:
name, top-left, bottom-right, score. -/
structure TMatch where
  name : String
  top_left : Int × Int
  bottom_right : Int × Int
  score : ℚ
deriving DecidableEq, Repr

/-- The `Match.center` property: `(x1 + (x2 - x1)//2, y1 + (y2 - y1)//2)`
with Python floor division. -/
def TMatch.center (m : TMatch) : Int × Int :=
  (m.top_left.1 + Int.fdiv (m.bottom_right.1 - m.top_left.1) 2,
   m.top_left.2 + Int.fdiv (m.bottom_right.2 - m.top_left.2) 2)

/-- Instrumented embedding of `Vision.find_best`: the first component is
the returned `Option` match, the second records whether
`cv.matchTemplate` (the similarity search, abstracted as `search`) was
invoked.  The size guard `H < tmpl.shape[0] or W < tmpl.shape[1]`
returns `None` without searching. -/
def find_best_run (search : Image → Image → ℚ × (Int × Int))
    (frame tmpl : Image) (key : String) (thr : ℚ) : Option TMatch × Bool :=
  if frame.height < tmpl.height ∨ frame.width < tmpl.width then
    (none, false)
  else
    let r := search frame tmpl
    let maxV := r.1
    let maxL := r.2
    (if maxV ≥ thr then
       some ⟨key, maxL, (maxL.1 + tmpl.width, maxL.2 + tmpl.height), maxV⟩
     else none,
     true)

/-- The value `Vision.find_best` returns to its caller. -/
def find_best (search : Image → Image → ℚ × (Int × Int))
    (frame tmpl : Image) (key : String) (thr : ℚ) : Option TMatch :=
  (find_best_run search frame tmpl key thr).1

/-- Capture bounding box (mss-style `left/top/width/height`). -/
structure BBox where
  left : Int
  top : Int
  width : Int
  height : Int
deriving DecidableEq, Repr

/-- Python `int()` on a rational: truncation toward zero. -/
def pyInt (q : ℚ) : Int :=
  if 0 ≤ q then ⌊q⌋ else -⌊-q⌋

/-- The sub-capture box `_scan_region` builds from the full box and the
fractional region `(rx, ry, rw, rh)`:
`left=int(L+rx*W), top=int(T+ry*H), width=int(rw*W), height=int(rh*H)`. -/
def regionBox (full : BBox) (rp : ℚ × ℚ × ℚ × ℚ) : BBox :=
  ⟨pyInt ((full.left : ℚ) + rp.1 * (full.width : ℚ)),
   pyInt ((full.top : ℚ) + rp.2.1 * (full.height : ℚ)),
   pyInt (rp.2.2.1 * (full.width : ℚ)),
   pyInt (rp.2.2.2 * (full.height : ℚ))⟩

/-- Translation of a region-local match into absolute capture
coordinates, as done by both `_scan_full` and `_scan_region`:
both corner points are shifted by the box's `left`/`top`. -/
def offsetMatch (m : TMatch) (box : BBox) : TMatch :=
  ⟨m.name,
   (m.top_left.1 + box.left, m.top_left.2 + box.top),
   (m.bottom_right.1 + box.left, m.bottom_right.2 + box.top),
   m.score⟩

/-- Embedding of `Bot._scan_region`: build the region box, run the
matcher on the grabbed region (abstracted as `find_res`, a function of
the box since the grabbed frame is determined by it), and translate any
match into absolute coordinates. -/
def scan_region (full : BBox) (rp : ℚ × ℚ × ℚ × ℚ)
    (find_res : BBox → Option TMatch) : Option TMatch :=
  let box := regionBox full rp
  match find_res box with
  | none => none
  | some m => some (offsetMatch m box)

/-- The template file map (`TEMPLATES` in the source). -/
def TEMPLATES : List (String × String) :=
  [("F_TOWERING", "assets/f_towering.png"),
   ("BTN_TOWERING_HARD", "assets/btn_towering_hard.png"),
   ("BTN_MATCH", "assets/btn_match.png"),
   ("BTN_DECLINE_CPT", "assets/btn_decline_cpt.png"),
   ("LBL_MATCHING", "assets/lbl_matching.png"),
   ("BTN_CONFIRM_MATCH", "assets/btn_confirm_match.png"),
   ("LBL_VICTORY", "assets/lbl_victory.png"),
   ("BTN_LEAVE_DUNGEON", "assets/btn_leave_dungeon.png"),
   ("HUD_DUNGEON", "assets/hud_dungeon.png"),
   ("BTN_LEAVE_ICON", "assets/btn_leave_icon.png"),
   ("BTN_CONFIRM_PARTY", "assets/btn_confirm_party.png")]

/-- Embedding of `Vision.__init__`: decode each declared template in
order (`imread` abstracts `cv.imread`), failing with the
`FileNotFoundError` message on the first template that does not decode;
on success the table maps each name to the decoded image together with
its dimensions (`img.shape[::-1]`, i.e. width then height). -/
def Vision_init (templates : List (String × String))
    (imread : String → Option Image) :
    Except String (List (String × (Image × Int × Int))) :=
  match templates with
  | [] => .ok []
  | (k, p) :: rest =>
    match imread p with
    | none => .error ("Template not found: " ++ p)
    | some img =>
      match Vision_init rest imread with
      | .error e => .error e
      | .ok tbl => .ok ((k, (img, ((img.width : Int), (img.height : Int)))) :: tbl)

/-! ## Controller state machine -/

/-- Timing knobs (`CONFIG` section of the source). -/
def CAPTAIN_DECLINE_GRACE : ℚ := 3
def CONFIRM_MONITOR_DURATION : ℚ := 15
def CONFIRM_GONE_MARGIN : ℚ := 1
def POST_LEAVE_WINDOW : ℚ := 8
def SPAM_FAILSAFE_SECS : ℚ := 16 * 60
def FAILSAFE_RETRY_SECS : ℚ := 2
def MATCH_RETRY_COOLDOWN : ℚ := 3

/-- The two fractional regions where the "Matching..." label may live. -/
def MATCHING_REGIONS : List (ℚ × ℚ × ℚ × ℚ) :=
  [(1/2, 31/50, 2/5, 2/25), (14/25, 43/50, 9/25, 1/10)]

/-- The enumerated states of `Bot.loop`. -/
inductive BotPhase where
  | WAIT_F
  | WAIT_HARD
  | WAIT_MATCH
  | BECOME_CAPTAIN
  | CHECK_MATCHING_UNTIL_CONFIRM
  | CONFIRM_MONITOR
  | LINKCLICK_SPAM
  | WAIT_VICTORY_LEAVE
  | POST_LEAVE_CHECK
  | LEAVE_PARTY
deriving DecidableEq, Repr

/-- The Controller's mutable fields, exactly those set in `Bot.__init__`
(minus the run/exit flags and the vision/window handles, which the loop
logic never mutates). -/
structure BotState where
  state : BotPhase
  hard_clicked : Bool
  match_clicked : Bool
  matching_seen : Bool
  confirm_monitor_start : ℚ
  last_confirm_seen : ℚ
  captain_wait_start : ℚ
  match_check_start : ℚ
  post_leave_start : ℚ
  after_leave_cycle : Bool
  dungeon_timer_start : ℚ
  hud_timer_armed : Bool
  failsafe_last_try_ts : ℚ
  leave_enter_ts : ℚ
  last_match_retry_ts : ℚ
  leave_probe_start_ts : ℚ
  leave_probe_done : Bool
deriving DecidableEq, Repr

/-- The field values assigned in `Bot.__init__`. -/
def initState : BotState :=
  { state := .WAIT_F
    hard_clicked := false
    match_clicked := false
    matching_seen := false
    confirm_monitor_start := 0
    last_confirm_seen := 0
    captain_wait_start := 0
    match_check_start := 0
    post_leave_start := 0
    after_leave_cycle := false
    dungeon_timer_start := 0
    hud_timer_armed := false
    failsafe_last_try_ts := 0
    leave_enter_ts := 0
    last_match_retry_ts := 0
    leave_probe_start_ts := 0
    leave_probe_done := false }

/-- Embedding of `Bot._full_reset`, assigning exactly the fields the
source assigns (note: `post_leave_start` is not among them). -/
def full_reset (s : BotState) : BotState :=
  { s with
    hard_clicked := false
    match_clicked := false
    matching_seen := false
    confirm_monitor_start := 0
    last_confirm_seen := 0
    captain_wait_start := 0
    match_check_start := 0
    after_leave_cycle := false
    dungeon_timer_start := 0
    hud_timer_armed := false
    failsafe_last_try_ts := 0
    leave_enter_ts := 0
    last_match_retry_ts := 0
    leave_probe_start_ts := 0
    leave_probe_done := false
    state := .WAIT_F }

/-- Input actions the loop can emit, mirroring the calls into
pyautogui / pywinauto. -/
inductive BotAction where
  | pressF
  | pressH
  | click (pt : Int × Int)
  | pressKey (k : String)
  | rapidClick
  | probeAssets
deriving DecidableEq, Repr

/-- Scan environment for one poll: what `_scan_full` returns for each
template key, and what `_scan_region` returns for a key and a
fractional region.  Within one iteration the captured screen is fixed,
so scans are pure functions of the request. -/
structure ScanEnv where
  full : String → Option TMatch
  region : String → (ℚ × ℚ × ℚ × ℚ) → Option TMatch

/-- The environment in which no scan ever detects anything. -/
def envNone : ScanEnv := ⟨fun _ => none, fun _ _ => none⟩

/-- Embedding of `Bot._maybe_arm_hud_timer`: if the timer is not armed
and the dungeon HUD is visible, record the start time, arm the timer and
press H once. -/
def maybe_arm_hud_timer (s : BotState) (env : ScanEnv) (now : ℚ) :
    BotState × List BotAction :=
  if ¬ s.hud_timer_armed ∧ (env.full "HUD_DUNGEON").isSome then
    ({ s with dungeon_timer_start := now, hud_timer_armed := true }, [.pressH])
  else (s, [])

/-- Tail of the `CHECK_MATCHING_UNTIL_CONFIRM` branch, run after the
latch and match-retry logic: hunt for the confirm control, otherwise
fall back to the party-leave flow when the latch was never set and more
than 5 s passed since entering the state. -/
def checkMatchingTail (s : BotState) (env : ScanEnv) (now : ℚ) :
    BotState × List BotAction :=
  match env.full "BTN_CONFIRM_MATCH" with
  | some c =>
    ({ s with confirm_monitor_start := now, last_confirm_seen := now,
              state := .CONFIRM_MONITOR }, [.click c.center])
  | none =>
    if ¬ s.matching_seen ∧ now - s.match_check_start > 5 then
      ({ s with leave_enter_ts := now, state := .LEAVE_PARTY },
       [.pressKey "esc", .pressKey "i"])
    else (s, [])

/-- Tail of the `LINKCLICK_SPAM` branch, run after the failsafe logic:
return to confirm-monitoring if the confirm control reappeared, advance
on victory, otherwise issue one rapid left-click. -/
def spamTail (s : BotState) (env : ScanEnv) (now : ℚ) (acc : List BotAction) :
    BotState × List BotAction :=
  match env.full "BTN_CONFIRM_MATCH" with
  | some c =>
    ({ s with confirm_monitor_start := now, last_confirm_seen := now,
              matching_seen := true, state := .CONFIRM_MONITOR },
     acc ++ [.click c.center])
  | none =>
    if (env.full "LBL_VICTORY").isSome then
      ({ s with state := .WAIT_VICTORY_LEAVE }, acc)
    else (s, acc ++ [.rapidClick])

/-- State-specific logic of one `Bot.loop` iteration (everything after
the cross-cutting F-guard), returning the updated state and the input
actions emitted during the iteration, in order. -/
def stateDispatch (s : BotState) (env : ScanEnv) (now : ℚ) :
    BotState × List BotAction :=
  match s.state with
  | .WAIT_F =>
    match env.full "F_TOWERING" with
    | some _ => ({ s with state := .WAIT_HARD }, [.pressF])
    | none => (s, [])
  | .WAIT_HARD =>
    if ¬ s.hard_clicked then
      match env.full "BTN_TOWERING_HARD" with
      | some h =>
        ({ s with hard_clicked := true, state := .WAIT_MATCH },
         [.click h.center])
      | none => ({ s with state := .WAIT_MATCH }, [])
    else ({ s with state := .WAIT_MATCH }, [])
  | .WAIT_MATCH =>
    if ¬ s.match_clicked then
      match env.full "BTN_MATCH" with
      | some m =>
        ({ s with match_clicked := true, captain_wait_start := now,
                  state := .BECOME_CAPTAIN }, [.click m.center])
      | none => (s, [])
    else (s, [])
  | .BECOME_CAPTAIN =>
    match env.full "BTN_DECLINE_CPT" with
    | some d =>
      ({ s with match_check_start := now,
                state := .CHECK_MATCHING_UNTIL_CONFIRM }, [.click d.center])
    | none =>
      if now - s.captain_wait_start ≥ CAPTAIN_DECLINE_GRACE then
        ({ s with leave_enter_ts := now, state := .LEAVE_PARTY },
         [.pressKey "esc", .pressKey "i"])
      else (s, [])
  | .CHECK_MATCHING_UNTIL_CONFIRM =>
    let matchingVisible :=
      MATCHING_REGIONS.any fun rp => (env.region "LBL_MATCHING" rp).isSome
    let s1 :=
      if ¬ s.matching_seen ∧ matchingVisible then
        { s with matching_seen := true }
      else s
    if now - s1.last_match_retry_ts ≥ MATCH_RETRY_COOLDOWN ∧ ¬ matchingVisible then
      match env.full "BTN_MATCH" with
      | some m =>
        ({ s1 with captain_wait_start := now, last_match_retry_ts := now,
                   state := .BECOME_CAPTAIN }, [.click m.center])
      | none => checkMatchingTail { s1 with last_match_retry_ts := now } env now
    else checkMatchingTail s1 env now
  | .CONFIRM_MONITOR =>
    let r1 := maybe_arm_hud_timer s env now
    let r2 :=
      match env.full "BTN_CONFIRM_MATCH" with
      | some c =>
        ({ r1.1 with last_confirm_seen := now }, r1.2 ++ [BotAction.click c.center])
      | none => r1
    let s2 := r2.1
    if (env.full "LBL_VICTORY").isSome then
      ({ s2 with state := .WAIT_VICTORY_LEAVE }, r2.2)
    else if now - s2.confirm_monitor_start ≥ CONFIRM_MONITOR_DURATION then
      if now - s2.last_confirm_seen > CONFIRM_GONE_MARGIN then
        ({ s2 with state := .LINKCLICK_SPAM }, r2.2)
      else ({ s2 with confirm_monitor_start := now }, r2.2)
    else (s2, r2.2)
  | .LINKCLICK_SPAM =>
    let r1 := maybe_arm_hud_timer s env now
    let s1 := r1.1
    if s1.hud_timer_armed ∧ s1.dungeon_timer_start > 0 ∧
        now - s1.dungeon_timer_start ≥ SPAM_FAILSAFE_SECS ∧
        now - s1.failsafe_last_try_ts ≥ FAILSAFE_RETRY_SECS then
      match env.full "BTN_CONFIRM_PARTY" with
      | some c =>
        let s2 := { s1 with post_leave_start := now, after_leave_cycle := true }
        let s3 := full_reset s2
        ({ s3 with post_leave_start := now, state := .POST_LEAVE_CHECK },
         r1.2 ++ [.pressKey "p", .click c.center])
      | none =>
        spamTail { s1 with failsafe_last_try_ts := now } env now
          (r1.2 ++ [.pressKey "p"])
    else spamTail s1 env now r1.2
  | .WAIT_VICTORY_LEAVE =>
    match env.full "BTN_LEAVE_DUNGEON" with
    | some l =>
      ({ s with post_leave_start := now, after_leave_cycle := true,
                state := .POST_LEAVE_CHECK }, [.click l.center])
    | none => (s, [])
  | .POST_LEAVE_CHECK =>
    match env.full "BTN_CONFIRM_MATCH" with
    | some c =>
      ({ s with confirm_monitor_start := now, last_confirm_seen := now,
                matching_seen := true, state := .CONFIRM_MONITOR },
       [.click c.center])
    | none =>
      if (env.full "F_TOWERING").isSome then (full_reset s, [])
      else if now - s.post_leave_start > POST_LEAVE_WINDOW then
        (full_reset s, [])
      else (s, [])
  | .LEAVE_PARTY =>
    if s.leave_enter_ts ≠ 0 ∧ now - s.leave_enter_ts < 3/5 then (s, [])
    else
      match env.full "BTN_LEAVE_ICON" with
      | some l =>
        let acts :=
          match env.full "BTN_CONFIRM_PARTY" with
          | some c => [BotAction.click l.center, BotAction.click c.center]
          | none => [BotAction.click l.center]
        (full_reset s, acts ++ [.pressKey "esc"])
      | none =>
        if now - s.leave_enter_ts ≥ 5 then
          if (env.full "F_TOWERING").isSome then
            (full_reset s, [.pressKey "esc"])
          else if s.leave_probe_start_ts = 0 then
            ({ s with leave_probe_start_ts := now }, [.pressKey "esc"])
          else if ¬ s.leave_probe_done ∧ now - s.leave_probe_start_ts ≥ 0 then
            ({ s with leave_probe_done := true },
             [.pressKey "esc", .probeAssets])
          else (s, [.pressKey "esc"])
        else (s, [])

/-- One iteration of the `Bot.loop` body while running: the
cross-cutting F-guard first — scan for the dungeon HUD; when not in the
party-leave flow and the HUD is absent, scan for the primary entry
prompt, and if it is visible while the state is not `WAIT_F`, perform a
full reset — then the state-specific logic. -/
def loopBody (s : BotState) (env : ScanEnv) (now : ℚ) :
    BotState × List BotAction :=
  let in_dungeon := env.full "HUD_DUNGEON"
  if s.state ≠ .LEAVE_PARTY ∧ in_dungeon = none then
    match env.full "F_TOWERING" with
    | some _ =>
      if s.state ≠ .WAIT_F then (full_reset s, [])
      else stateDispatch s env now
    | none => stateDispatch s env now
  else stateDispatch s env now

/-- One iteration of `Bot.loop` including the run-flag check: when the
run flag is down the iteration only sleeps — no scan is requested (the
environment is never consulted), no action is emitted and the state is
returned untouched. -/
def loopIter (running : Bool) (s : BotState) (env : ScanEnv) (now : ℚ) :
    BotState × List BotAction :=
  if running then loopBody s env now else (s, [])

/-- Iterating the loop body over a list of poll times (the run flag held
up and the screen content fixed), keeping only the reached state. -/
def runPolls (env : ScanEnv) (s : BotState) : List ℚ → BotState
  | [] => s
  | t :: ts => runPolls env (loopBody s env t).1 ts

/-! ## Helper lemmas -/

theorem idle_states_no_detect (s : BotState) (now : ℚ)
    (h : s.state = BotPhase.WAIT_F ∨ s.state = BotPhase.WAIT_MATCH ∨
         s.state = BotPhase.WAIT_VICTORY_LEAVE) :
    loopBody s envNone now = (s, []) := by
  rcases h with h | h | h <;>
    cases hm : s.match_clicked <;>
    simp [loopBody, stateDispatch, envNone, h, hm]

theorem idle_states_no_detect_run (s : BotState)
    (h : s.state = BotPhase.WAIT_F ∨ s.state = BotPhase.WAIT_MATCH ∨
         s.state = BotPhase.WAIT_VICTORY_LEAVE) :
    ∀ ts : List ℚ, runPolls envNone s ts = s := by
  intro ts
  induction ts with
  | nil => rfl
  | cons t ts ih => rw [runPolls, idle_states_no_detect s t h]; exact ih

/-! ## Concrete states and environments used by counterexamples and
witnesses -/

/-- A detection of the dungeon HUD. -/
def mHUD : TMatch := ⟨"HUD_DUNGEON", (0, 0), (10, 10), 9/10⟩

/-- A detection of the primary entry prompt. -/
def mF : TMatch := ⟨"F_TOWERING", (5, 5), (20, 20), 7/10⟩

/-- A detection of the Match button. -/
def mBTN : TMatch := ⟨"BTN_MATCH", (50, 50), (80, 70), 9/10⟩

/-- A poll on which both the dungeon HUD and the primary entry prompt
are visible. -/
def envHudAndF : ScanEnv :=
  ⟨fun k => if k = "HUD_DUNGEON" then some mHUD
            else if k = "F_TOWERING" then some mF else none,
   fun _ _ => none⟩

/-- A mid-flow controller state (not initial, not in the party-leave
flow). -/
def midFlowState : BotState :=
  { initState with state := .WAIT_MATCH, match_clicked := true }

/-! ## Claims -/

/-- C1 (counterexample): at a poll where the in-progress HUD indicator
and the primary entry prompt are both observed while the Controller sits
in `WAIT_MATCH` (neither the initial state nor the party-leave flow),
the claim predicts the desynchronization guard fires a full reset; the
code skips the guard whenever the HUD is visible, so the iteration
leaves the state untouched in `WAIT_MATCH` instead of resetting it to
`WAIT_F`. -/
theorem C1_cex :
    (envHudAndF.full "HUD_DUNGEON").isSome = true ∧
    (envHudAndF.full "F_TOWERING").isSome = true ∧
    midFlowState.state ≠ BotPhase.WAIT_F ∧
    midFlowState.state ≠ BotPhase.LEAVE_PARTY ∧
    loopBody midFlowState envHudAndF 0 = (midFlowState, []) ∧
    midFlowState.state = BotPhase.WAIT_MATCH := by
  decide

/-- C1 (amended): the desynchronization guard fires if and only if, in
that poll, the Controller is not in the party-leave flow, the
in-progress HUD indicator is NOT observed, the primary entry prompt IS
observed, and the Controller's state is not the initial state `WAIT_F`;
in every other case the iteration runs the state-specific logic. -/
theorem C1_guard_fires_iff (s : BotState) (env : ScanEnv) (now : ℚ) :
    loopBody s env now =
      if s.state ≠ BotPhase.LEAVE_PARTY ∧ env.full "HUD_DUNGEON" = none ∧
          (env.full "F_TOWERING").isSome = true ∧ s.state ≠ BotPhase.WAIT_F
      then (full_reset s, [])
      else stateDispatch s env now := by
  unfold loopBody
  cases hH : env.full "HUD_DUNGEON" <;> cases hF : env.full "F_TOWERING" <;>
    by_cases hL : s.state = BotPhase.LEAVE_PARTY <;>
    by_cases hW : s.state = BotPhase.WAIT_F <;>
    simp [hH, hF, hL, hW]

/-- A state in which every resettable field holds a non-initial value. -/
def dirtyState : BotState :=
  { state := .LINKCLICK_SPAM
    hard_clicked := true
    match_clicked := true
    matching_seen := true
    confirm_monitor_start := 7
    last_confirm_seen := 8
    captain_wait_start := 9
    match_check_start := 10
    post_leave_start := 42
    after_leave_cycle := true
    dungeon_timer_start := 11
    hud_timer_armed := true
    failsafe_last_try_ts := 12
    leave_enter_ts := 13
    last_match_retry_ts := 14
    leave_probe_start_ts := 15
    leave_probe_done := true }

/-- C2 (counterexample): the full-reset operation does not clear
`post_leave_start`: called on a state where it holds 42 (initial value
0), the field still holds 42 afterwards. -/
theorem C2_cex :
    initState.post_leave_start = 0 ∧
    (full_reset dirtyState).post_leave_start = 42 ∧
    (full_reset dirtyState).post_leave_start ≠ 0 := by
  decide

/-- C2 (amended): the full-reset operation returns the Controller to the
initial state `WAIT_F` and restores every one-shot flag, latch,
timestamp and counter to its `__init__` value, with the single exception
of `post_leave_start`, which is left unchanged. -/
theorem C2_full_reset (s : BotState) :
    full_reset s = { initState with post_leave_start := s.post_leave_start } :=
  rfl

/-- Formalisation of the bounded-timeout property claimed for a state
configuration: some finite bound exists past which a poll with no
detection no longer idles (i.e. it changes the controller state or emits
an action). -/
def defaultsByTimeout (s : BotState) : Prop :=
  ∃ bound : ℚ, ∀ t : ℚ, bound ≤ t → loopBody s envNone t ≠ (s, [])

/-- C3 (counterexample): `WAIT_F`, `WAIT_MATCH` and `WAIT_VICTORY_LEAVE`
have no timeout at all: when the reference they scan for is never
detected, no finite time bound makes them take a default action — every
poll, at any time, leaves the state unchanged and emits nothing. -/
theorem C3_cex :
    ¬ defaultsByTimeout initState ∧
    ¬ defaultsByTimeout { initState with state := .WAIT_MATCH } ∧
    ¬ defaultsByTimeout { initState with state := .WAIT_VICTORY_LEAVE } := by
  refine ⟨fun ⟨b, hb⟩ => hb b le_rfl ?_, fun ⟨b, hb⟩ => hb b le_rfl ?_,
          fun ⟨b, hb⟩ => hb b le_rfl ?_⟩
  · exact idle_states_no_detect _ _ (Or.inl rfl)
  · exact idle_states_no_detect _ _ (Or.inr (Or.inl rfl))
  · exact idle_states_no_detect _ _ (Or.inr (Or.inr rfl))

/-- C3 (amended): the states `WAIT_F`, `WAIT_MATCH` and
`WAIT_VICTORY_LEAVE` wait for their detection forever: if the scans
never detect anything, every poll — at every time — leaves the
Controller state unchanged and emits no action, and hence any sequence
of polls ends in the same state.  (Other states — `BECOME_CAPTAIN`,
`CHECK_MATCHING_UNTIL_CONFIRM`, `CONFIRM_MONITOR`, `POST_LEAVE_CHECK`,
`LEAVE_PARTY` and the armed failsafe of `LINKCLICK_SPAM` — do carry
bounded timers, but no such bound exists for these three.) -/
theorem C3_no_timeout (s : BotState)
    (h : s.state = BotPhase.WAIT_F ∨ s.state = BotPhase.WAIT_MATCH ∨
         s.state = BotPhase.WAIT_VICTORY_LEAVE) :
    (∀ now : ℚ, loopBody s envNone now = (s, [])) ∧
    (∀ ts : List ℚ, runPolls envNone s ts = s) :=
  ⟨fun now => idle_states_no_detect s now h, idle_states_no_detect_run s h⟩

/-- C3 witness: the no-timeout theorem applied to the initial `WAIT_F`
state at a huge poll time and over a concrete poll sequence. -/
theorem C3_no_timeout_witness :
    loopBody initState envNone 1000000 = (initState, []) ∧
    runPolls envNone initState [1, 500, 1000000] = initState :=
  ⟨(C3_no_timeout initState (Or.inl rfl)).1 1000000,
   (C3_no_timeout initState (Or.inl rfl)).2 [1, 500, 1000000]⟩

/-- C4: for every frame strictly narrower or strictly shorter than the
sought pattern (in either dimension), `find_best` returns nothing, the
underlying similarity search is not invoked (the invocation flag of the
instrumented run is `false`, for every possible search function), and —
the embedding being total — no exception is raised. -/
theorem C4_small_frame_guard (search : Image → Image → ℚ × (Int × Int))
    (frame tmpl : Image) (key : String) (thr : ℚ)
    (h : frame.width < tmpl.width ∨ frame.height < tmpl.height) :
    find_best_run search frame tmpl key thr = (none, false) ∧
    find_best search frame tmpl key thr = none := by
  have hg : frame.height < tmpl.height ∨ frame.width < tmpl.width := h.symm
  constructor
  · unfold find_best_run
    rw [if_pos hg]
  · unfold find_best find_best_run
    rw [if_pos hg]

/-- C4 witness: a 4×4 frame against a 10×3 pattern. -/
theorem C4_small_frame_guard_witness :
    find_best_run (fun _ _ => (1, (0, 0))) ⟨4, 4⟩ ⟨10, 3⟩ "BTN_MATCH" 0 =
      (none, false) ∧
    find_best (fun _ _ => (1, (0, 0))) ⟨4, 4⟩ ⟨10, 3⟩ "BTN_MATCH" 0 = none :=
  C4_small_frame_guard (fun _ _ => (1, (0, 0))) ⟨4, 4⟩ ⟨10, 3⟩ "BTN_MATCH" 0
    (Or.inl (by decide))

/-- C5: the threshold gate of `find_best` is monotone — a detection
returned at threshold `t2` is also returned, unchanged, at any lower
threshold `t1`, for the same search function, frame and pattern. -/
theorem C5_threshold_monotone (search : Image → Image → ℚ × (Int × Int))
    (frame tmpl : Image) (key : String) (t1 t2 : ℚ) (m : TMatch)
    (hlt : t1 < t2) (h : find_best search frame tmpl key t2 = some m) :
    find_best search frame tmpl key t1 = some m := by
  unfold find_best find_best_run at h ⊢
  dsimp only at h ⊢
  by_cases hg : frame.height < tmpl.height ∨ frame.width < tmpl.width
  · rw [if_pos hg] at h
    exact absurd h (by simp)
  · rw [if_neg hg] at h ⊢
    by_cases h2 : (search frame tmpl).1 ≥ t2
    · rw [if_pos h2] at h
      rw [if_pos (le_trans hlt.le h2)]
      exact h
    · rw [if_neg h2] at h
      exact absurd h (by simp)

/-- C5 witness: a search scoring 9/10 accepted at threshold 4/5 is also
accepted at threshold 1/2, with the identical detection. -/
theorem C5_threshold_monotone_witness :
    find_best (fun _ _ => (9/10, (3, 4))) ⟨100, 100⟩ ⟨10, 10⟩ "BTN_MATCH" (1/2) =
      some ⟨"BTN_MATCH", (3, 4), (13, 14), 9/10⟩ :=
  C5_threshold_monotone (fun _ _ => (9/10, (3, 4))) ⟨100, 100⟩ ⟨10, 10⟩
    "BTN_MATCH" (1/2) (4/5) ⟨"BTN_MATCH", (3, 4), (13, 14), 9/10⟩
    (by norm_num) (by norm_num [find_best, find_best_run])

/-- C8: whenever a region-scoped scan yields a detection, the returned
coordinates are the region-local match coordinates translated by the
region box's absolute offset — top-left, bottom-right and the derived
center alike — for every full capture box and every fractional region
descriptor. -/
theorem C8_region_absolute (full : BBox) (rp : ℚ × ℚ × ℚ × ℚ)
    (find_res : BBox → Option TMatch) (m : TMatch)
    (h : find_res (regionBox full rp) = some m) :
    scan_region full rp find_res =
      some (offsetMatch m (regionBox full rp)) ∧
    (offsetMatch m (regionBox full rp)).top_left =
      (m.top_left.1 + (regionBox full rp).left,
       m.top_left.2 + (regionBox full rp).top) ∧
    (offsetMatch m (regionBox full rp)).bottom_right =
      (m.bottom_right.1 + (regionBox full rp).left,
       m.bottom_right.2 + (regionBox full rp).top) ∧
    (offsetMatch m (regionBox full rp)).center =
      (m.center.1 + (regionBox full rp).left,
       m.center.2 + (regionBox full rp).top) := by
  refine ⟨by simp only [scan_region, h], rfl, rfl, ?_⟩
  unfold offsetMatch TMatch.center
  have hx : m.bottom_right.1 + (regionBox full rp).left -
      (m.top_left.1 + (regionBox full rp).left) =
      m.bottom_right.1 - m.top_left.1 := by ring
  have hy : m.bottom_right.2 + (regionBox full rp).top -
      (m.top_left.2 + (regionBox full rp).top) =
      m.bottom_right.2 - m.top_left.2 := by ring
  simp only [hx, hy, Prod.mk.injEq]
  constructor <;> ring

/-- C8 witness: a concrete region-local match inside the first
"Matching..." region of a 1920×1080 capture at offset (0, 0) is
translated to absolute coordinates, center included. -/
theorem C8_region_absolute_witness :
    scan_region ⟨0, 0, 1920, 1080⟩ (1/2, 31/50, 2/5, 2/25)
        (fun _ => some ⟨"LBL_MATCHING", (10, 20), (30, 60), 1/2⟩) =
      some ⟨"LBL_MATCHING", (970, 689), (990, 729), 1/2⟩ ∧
    (offsetMatch ⟨"LBL_MATCHING", (10, 20), (30, 60), 1/2⟩
        (regionBox ⟨0, 0, 1920, 1080⟩ (1/2, 31/50, 2/5, 2/25))).center =
      (980, 709) := by
  have h := C8_region_absolute ⟨0, 0, 1920, 1080⟩ (1/2, 31/50, 2/5, 2/25)
    (fun _ => some ⟨"LBL_MATCHING", (10, 20), (30, 60), 1/2⟩)
    ⟨"LBL_MATCHING", (10, 20), (30, 60), 1/2⟩ rfl
  refine ⟨?_, ?_⟩
  · rw [h.1]
    norm_num [offsetMatch, regionBox, pyInt]
  · rw [h.2.2.2]
    norm_num [TMatch.center, regionBox, pyInt]
    decide

/-- The `CONFIRM_MONITOR` state as entered from the matching loop: the
confirm control was last seen at the entry instant, here T = 0, which is
also when the monitor window started. -/
def confirmEntryState : BotState := { initState with state := .CONFIRM_MONITOR }

/-- C6 (counterexample): with the confirm last seen at T = 0 and the
monitor window also started at T = 0 (exactly the assignment performed
on entering `CONFIRM_MONITOR`), and no confirm detected afterwards, the
poll at T + 15 already transitions to `LINKCLICK_SPAM` — strictly
earlier than the claimed T + 16. -/
theorem C6_cex :
    confirmEntryState.last_confirm_seen = 0 ∧
    confirmEntryState.confirm_monitor_start = 0 ∧
    (loopBody confirmEntryState envNone 15).1.state = BotPhase.LINKCLICK_SPAM ∧
    (15 : ℚ) < 0 + 16 := by
  refine ⟨rfl, rfl, ?_, by norm_num⟩
  norm_num [loopBody, stateDispatch, maybe_arm_hud_timer, envNone,
    confirmEntryState, initState, CONFIRM_MONITOR_DURATION, CONFIRM_GONE_MARGIN]

/-- C6 (amended): in `CONFIRM_MONITOR`, with no confirm control, no
victory label and no primary entry prompt detected at the poll, the poll
at time `now` transitions to `LINKCLICK_SPAM` exactly when the 15 s
monitor window has elapsed (`now − confirm_monitor_start ≥ 15`) and the
confirm has been gone longer than the 1 s margin
(`now − last_confirm_seen > 1`); otherwise the Controller remains in
`CONFIRM_MONITOR`.  With window start and last sighting both at T this
makes the transition happen at the first poll at or after T + 15; it is
delayed to T + 16 only when the window is restarted at a poll falling
within the margin, i.e. in (T, T + 1]. -/
theorem C6_confirm_window (s : BotState) (env : ScanEnv) (now : ℚ)
    (hs : s.state = BotPhase.CONFIRM_MONITOR)
    (hc : env.full "BTN_CONFIRM_MATCH" = none)
    (hv : env.full "LBL_VICTORY" = none)
    (hf : env.full "F_TOWERING" = none) :
    (loopBody s env now).1.state =
      if CONFIRM_MONITOR_DURATION ≤ now - s.confirm_monitor_start ∧
         CONFIRM_GONE_MARGIN < now - s.last_confirm_seen
      then BotPhase.LINKCLICK_SPAM else BotPhase.CONFIRM_MONITOR := by
  cases hH : env.full "HUD_DUNGEON" <;> cases hA : s.hud_timer_armed <;>
    by_cases h1 : CONFIRM_MONITOR_DURATION ≤ now - s.confirm_monitor_start <;>
    by_cases h2 : CONFIRM_GONE_MARGIN < now - s.last_confirm_seen <;>
    simp [loopBody, stateDispatch, maybe_arm_hud_timer, hs, hc, hv, hf, hH, hA,
      h1, h2, ge_iff_le]

/-- The `CONFIRM_MONITOR` state with window start and last confirm
sighting both at time 2. -/
def confirmLateState : BotState :=
  { initState with
    state := .CONFIRM_MONITOR
    confirm_monitor_start := 2
    last_confirm_seen := 2 }

/-- C6 witness: the amended characterisation applied at a concrete
late poll — window started and confirm last seen at 2, poll at 20. -/
theorem C6_confirm_window_witness :
    (loopBody confirmLateState envNone 20).1.state =
      BotPhase.LINKCLICK_SPAM := by
  have h := C6_confirm_window confirmLateState envNone 20 rfl rfl rfl rfl
  rw [h]
  norm_num [confirmLateState, initState, CONFIRM_MONITOR_DURATION,
    CONFIRM_GONE_MARGIN]

/-- The matching loop as entered at time 0 (Decline clicked at 0, so
`match_check_start = 0`), with the latch unset and no retry yet. -/
def checkEntryState : BotState :=
  { initState with state := .CHECK_MATCHING_UNTIL_CONFIRM }

/-- A poll on which only the Match button is visible (no "Matching..."
label in either region, no confirm control, no entry prompt, no HUD). -/
def matchRetryEnv : ScanEnv :=
  ⟨fun k => if k = "BTN_MATCH" then some mBTN else none, fun _ _ => none⟩

/-- C7 (counterexample): all three hypotheses of the claim hold at the
poll at time 6 — the latch was never set, no confirm control was ever
detected, and more than 5 s have elapsed since entering the state — yet
the Controller transitions to `BECOME_CAPTAIN`, not to the party-leave
flow: the Match button is visible, so the match-retry branch (which runs
before the 5 s timeout check) clicks it and wins. -/
theorem C7_cex :
    checkEntryState.matching_seen = false ∧
    matchRetryEnv.full "BTN_CONFIRM_MATCH" = none ∧
    matchRetryEnv.region "LBL_MATCHING" (1/2, 31/50, 2/5, 2/25) = none ∧
    matchRetryEnv.region "LBL_MATCHING" (14/25, 43/50, 9/25, 1/10) = none ∧
    (5 : ℚ) < 6 - checkEntryState.match_check_start ∧
    (loopBody checkEntryState matchRetryEnv 6).1.state =
      BotPhase.BECOME_CAPTAIN := by
  refine ⟨rfl, by decide, rfl, rfl, by norm_num [checkEntryState, initState], ?_⟩
  norm_num [loopBody, stateDispatch, checkEntryState, initState, matchRetryEnv,
    MATCHING_REGIONS, MATCH_RETRY_COOLDOWN, checkMatchingTail]
  decide

/-- C7 (amended): in `CHECK_MATCHING_UNTIL_CONFIRM`, if the latch was
never set (so the "Matching..." label is not seen in either region), no
confirm control is detected, the Match button is *also* not detected (so
the periodic match-retry path cannot preempt), the primary entry prompt
is absent, and more than 5.0 s have elapsed since entering the state,
then the poll issues the escape sequence (ESC then I) and transitions to
the party-leave flow. -/
theorem C7_matching_timeout (s : BotState) (env : ScanEnv) (now : ℚ)
    (hs : s.state = BotPhase.CHECK_MATCHING_UNTIL_CONFIRM)
    (hm : s.matching_seen = false)
    (hr : ∀ rp, env.region "LBL_MATCHING" rp = none)
    (hbtn : env.full "BTN_MATCH" = none)
    (hc : env.full "BTN_CONFIRM_MATCH" = none)
    (hf : env.full "F_TOWERING" = none)
    (ht : 5 < now - s.match_check_start) :
    (loopBody s env now).1.state = BotPhase.LEAVE_PARTY ∧
    (loopBody s env now).2 = [.pressKey "esc", .pressKey "i"] := by
  by_cases hcd : MATCH_RETRY_COOLDOWN ≤ now - s.last_match_retry_ts <;>
    simp [loopBody, stateDispatch, checkMatchingTail, MATCHING_REGIONS, hs, hm,
      hr, hbtn, hc, hf, ht, hcd, ge_iff_le]

/-- C7 witness: the amended timeout applied to the entry state at a
poll at time 7 on which nothing at all is detected. -/
theorem C7_matching_timeout_witness :
    (loopBody checkEntryState envNone 7).1.state = BotPhase.LEAVE_PARTY ∧
    (loopBody checkEntryState envNone 7).2 =
      [BotAction.pressKey "esc", BotAction.pressKey "i"] :=
  C7_matching_timeout checkEntryState envNone 7 rfl rfl (fun _ => rfl) rfl rfl
    rfl (by norm_num [checkEntryState, initState])

/-- Embedding of `Bot.__init__` followed by the loop start in `_run`:
constructing the Bot constructs the `Vision` (loading all templates)
before any loop state exists, so a load failure propagates and no
Controller state is ever produced. -/
def Bot_init (imread : String → Option Image) :
    Except String ((List (String × (Image × Int × Int))) × BotState) :=
  match Vision_init TEMPLATES imread with
  | .error e => .error e
  | .ok tbl => .ok (tbl, initState)

theorem Vision_init_error_iff (imread : String → Option Image)
    (templates : List (String × String)) :
    (∃ e, Vision_init templates imread = .error e) ↔
      ∃ kp ∈ templates, imread kp.2 = none := by
  induction templates with
  | nil => simp [Vision_init]
  | cons hd tl ih =>
    obtain ⟨k, p⟩ := hd
    constructor
    · rintro ⟨e, he⟩
      simp only [Vision_init] at he
      cases hp : imread p with
      | none => exact ⟨(k, p), by simp, hp⟩
      | some img =>
        rw [hp] at he
        cases hrec : Vision_init tl imread with
        | error e' =>
          obtain ⟨kp, hmem, hnone⟩ := ih.mp ⟨e', hrec⟩
          exact ⟨kp, by simp [hmem], hnone⟩
        | ok tbl => rw [hrec] at he; cases he
    · rintro ⟨kp, hmem, hnone⟩
      rcases List.mem_cons.mp hmem with heq | hmem'
      · rw [heq] at hnone
        have hp : imread p = none := hnone
        exact ⟨"Template not found: " ++ p, by simp only [Vision_init, hp]⟩
      · cases hp : imread p with
        | none =>
          exact ⟨"Template not found: " ++ p, by simp only [Vision_init, hp]⟩
        | some img =>
          obtain ⟨e, he⟩ := ih.mpr ⟨kp, hmem', hnone⟩
          exact ⟨e, by simp only [Vision_init, hp, he]⟩

theorem Vision_init_ok_lookup (imread : String → Option Image)
    (templates : List (String × String)) :
    ∀ tbl, Vision_init templates imread = .ok tbl →
      ∀ kp ∈ templates, ∃ img : Image,
        tbl.lookup kp.1 = some (img, ((img.width : Int), (img.height : Int))) := by
  induction templates with
  | nil => intro tbl _ kp hkp; cases hkp
  | cons hd tl ih =>
    obtain ⟨k, p⟩ := hd
    intro tbl h kp hkp
    simp only [Vision_init] at h
    cases hp : imread p with
    | none => rw [hp] at h; cases h
    | some img =>
      rw [hp] at h
      cases hrec : Vision_init tl imread with
      | error e => rw [hrec] at h; cases h
      | ok tbl' =>
        rw [hrec] at h
        injection h with h'
        subst h'
        by_cases hk : kp.1 == k
        · exact ⟨img, by simp [List.lookup, hk]⟩
        · rcases List.mem_cons.mp hkp with heq | hmem
          · subst heq; simp at hk
          · obtain ⟨img', hl⟩ := ih tbl' hrec kp hmem
            exact ⟨img', by simp [List.lookup, hk, hl]⟩

/-- C9: loading the reference library fails if and only if some declared
template source cannot be decoded; on success every declared name looks
up to a loaded pattern paired with its dimensions (so `get` of a
declared name is infallible); and a load failure propagates out of the
Bot's construction, before any Controller state (and hence the run loop)
exists — there is no partial mode. -/
theorem C9_library_load (imread : String → Option Image) :
    ((∃ e, Vision_init TEMPLATES imread = .error e) ↔
      ∃ kp ∈ TEMPLATES, imread kp.2 = none) ∧
    (∀ tbl, Vision_init TEMPLATES imread = .ok tbl →
      ∀ kp ∈ TEMPLATES, ∃ img : Image,
        tbl.lookup kp.1 = some (img, ((img.width : Int), (img.height : Int)))) ∧
    (∀ e, Vision_init TEMPLATES imread = .error e →
      Bot_init imread = .error e) :=
  ⟨Vision_init_error_iff imread TEMPLATES,
   Vision_init_ok_lookup imread TEMPLATES,
   fun e he => by simp only [Bot_init, he]⟩

/-- A decoder that decodes every source as a 3×2 image. -/
def imreadAll : String → Option Image := fun _ => some ⟨3, 2⟩

/-- A decoder that fails exactly on the dungeon-HUD asset. -/
def imreadBad : String → Option Image :=
  fun p => if p = "assets/hud_dungeon.png" then none else some ⟨3, 2⟩

/-- C9 witness: with the failing decoder the library load errors (and
the Bot construction errors identically); with the total decoder the
declared name `F_TOWERING` looks up to its pattern and dimensions. -/
theorem C9_library_load_witness :
    (∃ e, Vision_init TEMPLATES imreadBad = .error e) ∧
    (∃ img : Image, ∃ tbl, Vision_init TEMPLATES imreadAll = .ok tbl ∧
      tbl.lookup "F_TOWERING" =
        some (img, ((img.width : Int), (img.height : Int)))) := by
  constructor
  · exact (C9_library_load imreadBad).1.mpr
      ⟨("HUD_DUNGEON", "assets/hud_dungeon.png"), by decide, by decide⟩
  · cases htbl : Vision_init TEMPLATES imreadAll with
    | error e =>
      obtain ⟨kp, _, hnone⟩ := (C9_library_load imreadAll).1.mp ⟨e, htbl⟩
      exact absurd hnone (by simp [imreadAll])
    | ok tbl =>
      obtain ⟨img, hl⟩ := (C9_library_load imreadAll).2.1 tbl htbl
        ("F_TOWERING", "assets/f_towering.png") (by decide)
      exact ⟨img, tbl, rfl, hl⟩

/-- C10: while the run flag is down, a loop iteration returns the
Controller state bit-for-bit unchanged and emits no input action, for
every scan environment and poll time (the environment is never
consulted, i.e. no scan is performed); resuming therefore continues from
exactly the state held at pause. -/
theorem C10_paused (s : BotState) (env : ScanEnv) (now : ℚ) :
    loopIter false s env now = (s, []) ∧
    (∀ env' : ScanEnv, loopIter false s env' now = loopIter false s env now) :=
  ⟨rfl, fun _ => rfl⟩
